import Mathlib

/-!
Verification of the bank-account and customer stores of `bigfastapi`
(`bigfastapi/banks.py` and `bigfastapi/models/customer_models.py`) against
their natural-language specification.

The Python code is shallowly embedded: the database is a list of records in
insertion order, and HTTP failures (`HTTPException 403/404`) become an
explicit error type.  Helpers that the two files import from elsewhere in
the package (`bank_models.fetch_bank` / `add_bank` / `update_bank`,
`organisation_models.is_organization_member`, the session configuration, the
pydantic schemas and the bundled `data/bank.json` table) are modelled from
the specification, as noted on each such definition.
-/

/-- Outcome of a failed handler call: `HTTP_403_FORBIDDEN` or
`HTTP_404_NOT_FOUND`. -/
inductive ApiError where
  | Forbidden
  | NotFound
deriving Repr, DecidableEq

/-- Decidable equality for `Except`, so that concrete runs of the embedded
operations can be checked by `decide`. -/
instance {ε α : Type} [DecidableEq ε] [DecidableEq α] :
    DecidableEq (Except ε α) := fun x y =>
  match x, y with
  | Except.ok a, Except.ok b =>
    if h : a = b then isTrue (by rw [h])
    else isFalse (fun hh => by cases hh; exact h rfl)
  | Except.error a, Except.error b =>
    if h : a = b then isTrue (by rw [h])
    else isFalse (fun hh => by cases hh; exact h rfl)
  | Except.ok _, Except.error _ => isFalse (fun hh => by cases hh)
  | Except.error _, Except.ok _ => isFalse (fun hh => by cases hh)

/-- A row of the `BankModels` table (`banks.py` constructs these in
`add_bank_detail`).  Timestamps are abstracted to naturals. -/
structure Bank where
  id : String
  organisation_id : String
  creator_id : String
  account_number : String
  bank_name : String
  recipient_name : String
  country : String
  sort_code : String
  swift_code : String
  bank_address : String
  account_type : String
  aba_routing_number : String
  iban : String
  is_preferred : Bool
  is_deleted : Bool
  date_created : Nat
deriving Repr, DecidableEq

/-- Modelled from the spec: the request body `bank_schemas.AddBank` is not
under `src/`; its fields are exactly those read by `add_bank_detail` and
`update_bank_details` in `banks.py`. -/
structure AddBank where
  organisation_id : String
  account_number : String
  bank_name : String
  recipient_name : String
  country : String
  sort_code : String
  swift_code : String
  bank_address : String
  account_type : String
  is_preferred : Bool
  aba_routing_number : String
  iban : String
  date_created : Nat
deriving Repr, DecidableEq

/-- Modelled from the spec: `organisation_models.is_organization_member` is
not under `src/`; §4.2 gives the contract `is_member(user_id,
organization_id) → bool`, a membership test against externally owned
organization-membership records, here a list of (user id, organization id)
pairs. -/
def is_organization_member (user_id organization_id : String)
    (members : List (String × String)) : Bool :=
  members.contains (user_id, organization_id)

/-- Modelled from the spec: `bank_models.fetch_bank` is not under `src/`;
§4.3 `get(id)` "fails with `NotFound` if no non-deleted record with that id
exists" and "does not scope this lookup by organization at the storage
layer". -/
def fetch_bank (db : List Bank) (id : String) : Except ApiError Bank :=
  match db.find? (fun b => b.id == id && !b.is_deleted) with
  | some b => Except.ok b
  | none => Except.error ApiError.NotFound

/-- `get_single_bank` in `banks.py`: the handler only calls `fetch_bank`
and converts the row to the response schema; its `org_id` parameter is never
read and no membership check is made. -/
def get_single_bank (members : List (String × String)) (db : List Bank)
    (org_id bank_id user_id : String) : Except ApiError Bank :=
  fetch_bank db bank_id

/-- The field assignments of `update_bank_details` in `banks.py`: every
field of the request body except `organisation_id` and `date_created` is
copied onto the fetched row (`id`, `organisation_id`, `creator_id`,
`is_deleted` and `date_created` are not assigned). -/
def applyBankUpdate (b : Bank) (inp : AddBank) : Bank :=
  { b with
    account_number := inp.account_number
    bank_name := inp.bank_name
    recipient_name := inp.recipient_name
    country := inp.country
    sort_code := inp.sort_code
    swift_code := inp.swift_code
    bank_address := inp.bank_address
    account_type := inp.account_type
    is_preferred := inp.is_preferred
    aba_routing_number := inp.aba_routing_number
    iban := inp.iban }

/-- Modelled from the spec: the clear-preferred side effect of
`update_bank_details` (`db.query(BankModels).filter_by(is_preferred=True)
.first()` followed by clearing that row's flag).  Whether that query sees
the session's pending write to the row being updated is decided by the
session configuration in `db/database.py`, which is not under `src/`, so
the spec's words govern: §4.3 "finds any OTHER record across the store
(not organization-scoped) with `is_preferred = true` and clears it" and §5
"clear old, then the main update".  Accordingly the first record in
pre-update store order with `is_preferred = true` whose id differs from the
updated row's (store-wide, soft-deleted rows included, no organization
filter) has its flag set to `false`; if none exists the store is
unchanged. -/
def clearFirstPreferredOther (bid : String) : List Bank → List Bank
  | [] => []
  | b :: rest =>
    if b.is_preferred && !(b.id == bid) then { b with is_preferred := false } :: rest
    else b :: clearFirstPreferredOther bid rest

/-- `update_bank_details` in `banks.py`.  The membership check uses the
request body's `organisation_id`, not the stored bank's.  When the request
sets `is_preferred`, the old preferred record is cleared
(`clearFirstPreferredOther`, see there) and then the main update is
written.  Committing (`bank_models.update_bank`, modelled from the spec:
§4.3 `update` persists and returns the record) returns the row as it
stands after both writes. -/
def update_bank_details (members : List (String × String)) (db : List Bank)
    (bank_id : String) (bank : AddBank) (user_id : String) :
    Except ApiError (List Bank × Bank) :=
  if is_organization_member user_id bank.organisation_id members then
    match fetch_bank db bank_id with
    | Except.error e => Except.error e
    | Except.ok bank_account =>
      let updated := applyBankUpdate bank_account bank
      let db1 := if bank.is_preferred then clearFirstPreferredOther bank_account.id db else db
      let db2 := db1.map (fun b => if b.id == bank_account.id then updated else b)
      Except.ok (db2, ((db2.find? (fun b => b.id == bank_account.id)).getD updated))
  else Except.error ApiError.Forbidden

/-- `delete_bank` in `banks.py`: fetch the row, check membership against the
stored `organisation_id`, then set `is_deleted = True` and commit. -/
def delete_bank (members : List (String × String)) (db : List Bank)
    (bank_id user_id : String) : Except ApiError (List Bank) :=
  match fetch_bank db bank_id with
  | Except.error e => Except.error e
  | Except.ok bank =>
    if is_organization_member user_id bank.organisation_id members then
      Except.ok (db.map (fun b =>
        if b.id == bank.id then { b with is_deleted := true } else b))
    else Except.error ApiError.Forbidden

/-- The row `add_bank_detail` constructs (`BankModels(id=uuid4().hex, ...)`);
the fresh id is a parameter, `is_deleted` takes the column default
`false`. -/
def newBankOfInput (inp : AddBank) (new_id user_id : String) : Bank :=
  { id := new_id
    organisation_id := inp.organisation_id
    creator_id := user_id
    account_number := inp.account_number
    bank_name := inp.bank_name
    recipient_name := inp.recipient_name
    country := inp.country
    sort_code := inp.sort_code
    swift_code := inp.swift_code
    bank_address := inp.bank_address
    account_type := inp.account_type
    aba_routing_number := inp.aba_routing_number
    iban := inp.iban
    is_preferred := inp.is_preferred
    is_deleted := false
    date_created := inp.date_created }

/-- `add_bank_detail` in `banks.py`: membership check against the request
body's organization, then persist the new row (`bank_models.add_bank`,
modelled from the spec: §4.3 `create` "assigns id, persists, returns the new
record"; no other record is touched). -/
def add_bank_detail (members : List (String × String)) (db : List Bank)
    (inp : AddBank) (user_id new_id : String) :
    Except ApiError (List Bank × Bank) :=
  if is_organization_member user_id inp.organisation_id members then
    let nb := newBankOfInput inp new_id user_id
    Except.ok (db ++ [nb], nb)
  else Except.error ApiError.Forbidden

/-- `get_organization_bank_accounts` in `banks.py`: membership check, then
`filter_by(organisation_id=...).filter_by(is_deleted=False)` (pagination of
the resulting list is left to the transport layer). -/
def get_organization_bank_accounts (members : List (String × String))
    (db : List Bank) (organization_id user_id : String) :
    Except ApiError (List Bank) :=
  if is_organization_member user_id organization_id members then
    Except.ok (db.filter (fun b =>
      b.organisation_id == organization_id && !b.is_deleted))
  else Except.error ApiError.Forbidden

/-- A bank row with the given id, organization, flags; the remaining fields
take fixed neutral values.  Used only to build concrete stores in
witnesses and counterexamples. -/
def sampleBank (id org : String) (pref deleted : Bool) : Bank :=
  { id := id
    organisation_id := org
    creator_id := "creator"
    account_number := "0000"
    bank_name := "bank"
    recipient_name := "recipient"
    country := "country"
    sort_code := "sc"
    swift_code := "sw"
    bank_address := "addr"
    account_type := "savings"
    aba_routing_number := "aba"
    iban := "iban"
    is_preferred := pref
    is_deleted := deleted
    date_created := 0 }

/-- An update request body with the given organization and preferred flag;
remaining fields take fixed neutral values. -/
def sampleAddBank (org : String) (pref : Bool) : AddBank :=
  { organisation_id := org
    account_number := "9999"
    bank_name := "bank2"
    recipient_name := "recipient2"
    country := "country2"
    sort_code := "sc2"
    swift_code := "sw2"
    bank_address := "addr2"
    account_type := "current"
    is_preferred := pref
    aba_routing_number := "aba2"
    iban := "iban2"
    date_created := 1 }

/-- A row of the `Customer` table in `customer_models.py`.  Timestamps are
abstracted to naturals; `age` keeps the `Integer` column type. -/
structure Customer where
  id : String
  customer_id : String
  organization_id : String
  email : String
  first_name : String
  last_name : String
  unique_id : String
  phone_number : String
  business_name : String
  location : String
  gender : String
  age : Int
  postal_code : String
  language : String
  country : String
  city : String
  region : String
  auto_reminder : Bool
  country_code : String
  is_deleted : Bool
  date_created : Nat
  last_updated : Nat
deriving Repr, DecidableEq

/-- Modelled from the spec: `customer_schemas.CustomerUpdate` is not under
`src/`; its fields are exactly those `put_customer` reads, and §4.4 gives
the partial-update-by-presence reading (an absent field arrives as the falsy
default: empty string, zero age). -/
structure CustomerUpdate where
  first_name : String
  last_name : String
  unique_id : String
  email : String
  phone_number : String
  location : String
  business_name : String
  gender : String
  age : Int
  postal_code : String
  language : String
  country : String
  city : String
  region : String
  country_code : String
deriving Repr, DecidableEq

/-- The all-empty update body: every field is Python-falsy, so no
`if customer.field:` guard in `put_customer` fires. -/
def emptyUpdate : CustomerUpdate :=
  { first_name := ""
    last_name := ""
    unique_id := ""
    email := ""
    phone_number := ""
    location := ""
    business_name := ""
    gender := ""
    age := 0
    postal_code := ""
    language := ""
    country := ""
    city := ""
    region := ""
    country_code := "" }

/-- `put_customer` in `customer_models.py`: each `if customer.field:` guard
(Python truthiness: non-empty string / non-zero integer) conditionally
overwrites the stored row, in source order; note the last guard writes
`customer.country_code` into `customer_instance.region`.  The
`last_updated = datetime.now()` write is modelled by the `now` argument. -/
def put_customer (customer : CustomerUpdate) (ci0 : Customer) (now : Nat) :
    Customer :=
  let c1 := if customer.first_name ≠ "" then { ci0 with first_name := customer.first_name } else ci0
  let c2 := if customer.last_name ≠ "" then { c1 with last_name := customer.last_name } else c1
  let c3 := if customer.unique_id ≠ "" then { c2 with unique_id := customer.unique_id } else c2
  let c4 := if customer.email ≠ "" then { c3 with email := customer.email } else c3
  let c5 := if customer.phone_number ≠ "" then { c4 with phone_number := customer.phone_number } else c4
  let c6 := if customer.location ≠ "" then { c5 with location := customer.location } else c5
  let c7 := if customer.business_name ≠ "" then { c6 with business_name := customer.business_name } else c6
  let c8 := if customer.gender ≠ "" then { c7 with gender := customer.gender } else c7
  let c9 := if customer.age ≠ 0 then { c8 with age := customer.age } else c8
  let c10 := if customer.postal_code ≠ "" then { c9 with postal_code := customer.postal_code } else c9
  let c11 := if customer.language ≠ "" then { c10 with language := customer.language } else c10
  let c12 := if customer.country ≠ "" then { c11 with country := customer.country } else c11
  let c13 := if customer.city ≠ "" then { c12 with city := customer.city } else c12
  let c14 := if customer.region ≠ "" then { c13 with region := customer.region } else c13
  let c15 := if customer.country_code ≠ "" then { c14 with region := customer.country_code } else c14
  { c15 with last_updated := now }

/-- Lexicographic order on character lists: the order a SQL `ORDER BY` on a
text column induces, used to model sorting on string-valued columns. -/
def lexLe : List Char → List Char → Bool
  | [], _ => true
  | _ :: _, [] => false
  | a :: as, b :: bs => if a < b then true else if b < a then false else lexLe as bs

/-- Order on string column values. -/
def strLe (a b : String) : Bool :=
  lexLe a.data b.data

/-- `ORDER BY date_created DESC`: later creation times first. -/
def dateDescLe (a b : Customer) : Bool :=
  decide (b.date_created ≤ a.date_created)

/-- `order_by(...).offset(offset).limit(size)` over an already filtered row
list: sort by the comparator, drop `offset` rows, return at most `size`. -/
def sortedWindow (le : Customer → Customer → Bool) (offset size : Nat)
    (l : List Customer) : List Customer :=
  ((List.insertionSort (fun a b => le a b = true) l).drop offset).take size

/-- `fetch_customers` in `customer_models.py`: non-deleted customers of the
organization, newest first, windowed by offset/size. -/
def fetch_customers (db : List Customer) (organization_id : String)
    (offset size : Nat) : List Customer :=
  sortedWindow dateDescLe offset size (db.filter (fun c =>
    c.organization_id == organization_id && !c.is_deleted))

/-- SQL `LIKE '%value%'`: the value occurs as a contiguous substring
(`search_text = f"%{search_value}%"` in `search_customers`; the search value
is assumed free of the `LIKE` metacharacters `%` and `_`). -/
def likeContains (pattern s : String) : Bool :=
  decide (pattern.data <:+: s.data)

/-- `search_customers` in `customer_models.py`: one sub-query matching the
text as `LIKE '%text%'` against first or last name, one matching it as
`LIKE text` — no wildcards added, hence an exact comparison — against
`unique_id` or `customer_id`; both org-scoped, non-deleted, newest first,
independently windowed, concatenated names first. -/
def search_customers (db : List Customer) (organization_id search_value : String)
    (offset size : Nat) : List Customer :=
  let customers_by_name := sortedWindow dateDescLe offset size (db.filter (fun c =>
    c.organization_id == organization_id && !c.is_deleted &&
    (likeContains search_value c.first_name || likeContains search_value c.last_name)))
  let customers_by_id := sortedWindow dateDescLe offset size (db.filter (fun c =>
    c.organization_id == organization_id && !c.is_deleted &&
    (c.unique_id == search_value || c.customer_id == search_value)))
  customers_by_name ++ customers_by_id

/-- The search operation as claim C6 words it, differing from
`search_customers` only in the id sub-query, which the claim describes as a
PARTIAL (substring) match on `unique_id` or `customer_id`.  Stated only to
be compared against the embedding of the source. -/
def search_customers_claimed (db : List Customer)
    (organization_id search_value : String) (offset size : Nat) : List Customer :=
  let customers_by_name := sortedWindow dateDescLe offset size (db.filter (fun c =>
    c.organization_id == organization_id && !c.is_deleted &&
    (likeContains search_value c.first_name || likeContains search_value c.last_name)))
  let customers_by_id := sortedWindow dateDescLe offset size (db.filter (fun c =>
    c.organization_id == organization_id && !c.is_deleted &&
    (likeContains search_value c.unique_id || likeContains search_value c.customer_id)))
  customers_by_name ++ customers_by_id

/-- The mapped column attributes of the `Customer` class: the field names
for which `getattr(Customer, sort_key, "first_name")` finds a column. -/
def customerColumns : List String :=
  ["id", "customer_id", "organization_id", "email", "first_name", "last_name",
   "unique_id", "phone_number", "business_name", "location", "gender", "age",
   "postal_code", "language", "country", "city", "region", "auto_reminder",
   "country_code", "is_deleted", "date_created", "last_updated"]

/-- Comparator induced by `ORDER BY` on one `Customer` column; the catch-all
case is the `getattr(Customer, sort_key, "first_name")` fallback, which
orders by the textual column `first_name`. -/
def colLe (col : String) (a b : Customer) : Bool :=
  match col with
  | "id" => strLe a.id b.id
  | "customer_id" => strLe a.customer_id b.customer_id
  | "organization_id" => strLe a.organization_id b.organization_id
  | "email" => strLe a.email b.email
  | "first_name" => strLe a.first_name b.first_name
  | "last_name" => strLe a.last_name b.last_name
  | "unique_id" => strLe a.unique_id b.unique_id
  | "phone_number" => strLe a.phone_number b.phone_number
  | "business_name" => strLe a.business_name b.business_name
  | "location" => strLe a.location b.location
  | "gender" => strLe a.gender b.gender
  | "age" => decide (a.age ≤ b.age)
  | "postal_code" => strLe a.postal_code b.postal_code
  | "language" => strLe a.language b.language
  | "country" => strLe a.country b.country
  | "city" => strLe a.city b.city
  | "region" => strLe a.region b.region
  | "auto_reminder" => !a.auto_reminder || b.auto_reminder
  | "country_code" => strLe a.country_code b.country_code
  | "is_deleted" => !a.is_deleted || b.is_deleted
  | "date_created" => decide (a.date_created ≤ b.date_created)
  | "last_updated" => decide (a.last_updated ≤ b.last_updated)
  | _ => strLe a.first_name b.first_name

/-- `sort_customers` in `customer_models.py`: non-deleted customers of the
organization ordered by the caller-supplied column (descending exactly when
`sort_dir == "desc"`), windowed by offset/size. -/
def sort_customers (db : List Customer) (organization_id sort_key : String)
    (offset size : Nat) (sort_dir : String) : List Customer :=
  let base := db.filter (fun c =>
    c.organization_id == organization_id && !c.is_deleted)
  if sort_dir = "desc" then
    sortedWindow (fun a b => colLe sort_key b a) offset size base
  else
    sortedWindow (fun a b => colLe sort_key a b) offset size base

/-- `get_customer_by_id` in `customer_models.py`:
`query(Customer).filter(Customer.customer_id == customer_id).first()` — the
first row with that short id, with NO `is_deleted` filter; `none` models an
empty result. -/
def get_customer_by_id (db : List Customer) (customer_id : String) :
    Option Customer :=
  db.find? (fun c => c.customer_id == customer_id)

/-- A customer row with the given ids, organization, names and flags; the
remaining fields take fixed neutral values.  Used only to build concrete
stores in witnesses and counterexamples. -/
def sampleCustomer (id short_id org first last : String) (deleted : Bool)
    (created : Nat) : Customer :=
  { id := id
    customer_id := short_id
    organization_id := org
    email := "e@x"
    first_name := first
    last_name := last
    unique_id := "uid-" ++ id
    phone_number := "1"
    business_name := "biz"
    location := "loc"
    gender := "g"
    age := 21
    postal_code := "100"
    language := "en"
    country := "NG"
    city := "city"
    region := "Lagos"
    auto_reminder := false
    country_code := "NG"
    is_deleted := deleted
    date_created := created
    last_updated := created }

/-- A country entry of the bundled `data/bank.json` table: a finite JSON
object; values abstracted to strings. -/
abbrev CEntry := List (String × String)

/-- Result of `BankValidator.get_country_data`: either a whole country entry
or one projected field of it. -/
inductive CountryVal where
  | entry (e : CEntry)
  | field (v : String)
deriving Repr, DecidableEq

/-- `BankValidator.get_country_data` in `banks.py`, over a table parameter
(modelled from the spec: `data/bank.json` is not under `src/`; §3
CountrySchema is a country-keyed mapping with a catch-all `"others"` entry).
The source tests `info is None` in the first branch but Python truthiness
(`if info:`) in the third, so `info = some ""` takes the `elif` branch for
an absent country but the whole-entry branch for a present one; a key
absent from a dict (`KeyError`) is `none`. -/
def get_country_data (tbl : List (String × CEntry)) (country : String)
    (info : Option String) : Option CountryVal :=
  match tbl.lookup country, info with
  | none, none => (tbl.lookup "others").map CountryVal.entry
  | none, some s => ((tbl.lookup "others").bind (fun e => e.lookup s)).map CountryVal.field
  | some e, some s =>
    if s ≠ "" then (e.lookup s).map CountryVal.field else some (CountryVal.entry e)
  | some e, none => some (CountryVal.entry e)

/-- `BankValidator.validate_supported_country` in `banks.py`: exact key
membership. -/
def validate_supported_country (tbl : List (String × CEntry))
    (country : String) : Bool :=
  tbl.any (fun d => d.1 == country)


/-! ## Shared lemmas about the embedded operations -/

theorem lexLe_total : ∀ x y, lexLe x y = true ∨ lexLe y x = true := by
  intro x
  induction x with
  | nil => intro y; left; rfl
  | cons a as ih =>
    intro y
    cases y with
    | nil => right; rfl
    | cons b bs =>
      simp only [lexLe]
      rcases lt_trichotomy a b with h | h | h
      · left; simp [h, not_lt_of_gt h]
      · subst h; simp [lt_irrefl]; exact ih bs
      · right; simp [h, not_lt_of_gt h]

theorem lexLe_trans : ∀ x y z, lexLe x y = true → lexLe y z = true → lexLe x z = true := by
  intro x
  induction x with
  | nil => intro y z _ _; rfl
  | cons a as ih =>
    intro y z hxy hyz
    cases y with
    | nil => simp [lexLe] at hxy
    | cons b bs =>
      cases z with
      | nil => simp [lexLe] at hyz
      | cons c cs =>
        simp only [lexLe] at hxy hyz ⊢
        rcases lt_trichotomy a b with hab | hab | hab
        · rcases lt_trichotomy b c with hbc | hbc | hbc
          · simp [lt_trans hab hbc, not_lt_of_gt (lt_trans hab hbc)]
          · subst hbc; simp [hab, not_lt_of_gt hab]
          · exfalso; simp [not_lt_of_gt hbc, hbc] at hyz
        · subst hab
          rcases lt_trichotomy a c with hbc | hbc | hbc
          · simp [hbc, not_lt_of_gt hbc]
          · subst hbc
            simp only [lt_irrefl, if_neg (lt_irrefl a).elim] at hxy hyz ⊢
            simp only [if_neg (by exact lt_irrefl a)] at *
            exact ih bs cs hxy hyz
          · exfalso; simp [not_lt_of_gt hbc, hbc] at hyz
        · exfalso; simp [not_lt_of_gt hab, hab] at hxy

theorem strLe_total (a b : String) : strLe a b = true ∨ strLe b a = true :=
  lexLe_total _ _

theorem strLe_trans {a b c : String} :
    strLe a b = true → strLe b c = true → strLe a c = true :=
  lexLe_trans _ _ _

theorem boolLe_total (x y : Bool) : (!x || y) = true ∨ (!y || x) = true := by
  cases x <;> cases y <;> simp

theorem boolLe_trans (x y z : Bool) :
    (!x || y) = true → (!y || z) = true → (!x || z) = true := by
  cases x <;> cases y <;> cases z <;> simp

theorem intDecLe_total (x y : Int) :
    decide (x ≤ y) = true ∨ decide (y ≤ x) = true := by
  simp only [decide_eq_true_eq]; exact le_total x y

theorem natDecLe_total (x y : Nat) :
    decide (x ≤ y) = true ∨ decide (y ≤ x) = true := by
  simp only [decide_eq_true_eq]; exact le_total x y

theorem intDecLe_trans {x y z : Int} :
    decide (x ≤ y) = true → decide (y ≤ z) = true → decide (x ≤ z) = true := by
  simp only [decide_eq_true_eq]; exact le_trans

theorem natDecLe_trans {x y z : Nat} :
    decide (x ≤ y) = true → decide (y ≤ z) = true → decide (x ≤ z) = true := by
  simp only [decide_eq_true_eq]; exact le_trans

theorem colLe_total (k : String) (a b : Customer) :
    colLe k a b = true ∨ colLe k b a = true := by
  unfold colLe
  split <;>
    first
      | exact strLe_total _ _
      | exact intDecLe_total _ _
      | exact natDecLe_total _ _
      | exact boolLe_total _ _

theorem colLe_trans (k : String) (a b c : Customer) :
    colLe k a b = true → colLe k b c = true → colLe k a c = true := by
  unfold colLe
  split <;>
    first
      | exact fun h1 h2 => strLe_trans h1 h2
      | exact fun h1 h2 => intDecLe_trans h1 h2
      | exact fun h1 h2 => natDecLe_trans h1 h2
      | exact fun h1 h2 => boolLe_trans _ _ _ h1 h2

theorem colLe_fallback (k : String) (hk : k ∉ customerColumns) (a b : Customer) :
    colLe k a b = colLe "first_name" a b := by
  unfold colLe
  split <;> first
    | rfl
    | exact absurd (by decide) hk

theorem mem_sortedWindow {le : Customer → Customer → Bool} {offset size : Nat}
    {l : List Customer} {x : Customer} (h : x ∈ sortedWindow le offset size l) :
    x ∈ l := by
  unfold sortedWindow at h
  have h1 := (List.take_sublist _ _).subset h
  have h2 := (List.drop_sublist _ _).subset h1
  exact (List.mem_insertionSort _).mp h2

theorem sortedWindow_full {le : Customer → Customer → Bool} {size : Nat}
    {l : List Customer} (h : l.length ≤ size) :
    sortedWindow le 0 size l =
      List.insertionSort (fun a b => le a b = true) l := by
  unfold sortedWindow
  rw [List.drop_zero, List.take_of_length_le]
  rw [(List.perm_insertionSort _ _).length_eq]
  exact h

theorem sortedWindow_pairwise {le : Customer → Customer → Bool}
    (htot : ∀ a b, le a b = true ∨ le b a = true)
    (htr : ∀ a b c, le a b = true → le b c = true → le a c = true)
    (offset size : Nat) (l : List Customer) :
    (sortedWindow le offset size l).Pairwise (fun a b => le a b = true) := by
  haveI : IsTotal Customer (fun a b => le a b = true) := ⟨htot⟩
  haveI : IsTrans Customer (fun a b => le a b = true) := ⟨htr⟩
  have hs := List.sorted_insertionSort (fun a b => le a b = true) l
  exact List.Pairwise.sublist ((List.take_sublist _ _).trans (List.drop_sublist _ _)) hs

theorem clearFirstPreferredOther_map_id (bid : String) (l : List Bank) :
    (clearFirstPreferredOther bid l).map Bank.id = l.map Bank.id := by
  induction l with
  | nil => rfl
  | cons b rest ih =>
    unfold clearFirstPreferredOther
    split
    · rfl
    · simp [ih]

theorem clearFirstPreferredOther_eq_self (bid : String) (l : List Bank)
    (h : l.countP (fun b => b.is_preferred && !(b.id == bid)) = 0) :
    clearFirstPreferredOther bid l = l := by
  induction l with
  | nil => rfl
  | cons b rest ih =>
    simp only [List.countP_cons] at h
    by_cases hb : (b.is_preferred && !(b.id == bid)) = true
    · rw [if_pos hb] at h
      omega
    · rw [if_neg hb] at h
      have hr : rest.countP (fun b => b.is_preferred && !(b.id == bid)) = 0 := by omega
      unfold clearFirstPreferredOther
      rw [if_neg hb, ih hr]

theorem countP_clearFirstPreferredOther (bid : String) (l : List Bank)
    (h : 0 < l.countP (fun b => b.is_preferred && !(b.id == bid))) :
    (clearFirstPreferredOther bid l).countP
        (fun b => b.is_preferred && !(b.id == bid)) + 1 =
      l.countP (fun b => b.is_preferred && !(b.id == bid)) := by
  induction l with
  | nil => simp at h
  | cons b rest ih =>
    simp only [List.countP_cons] at h
    by_cases hb : (b.is_preferred && !(b.id == bid)) = true
    · unfold clearFirstPreferredOther
      rw [if_pos hb]
      simp only [List.countP_cons]
      rw [if_pos hb]
      simp
    · rw [if_neg hb] at h
      have h' : 0 < rest.countP (fun b => b.is_preferred && !(b.id == bid)) := by omega
      unfold clearFirstPreferredOther
      rw [if_neg hb]
      simp only [List.countP_cons]
      rw [if_neg hb]
      have := ih h'
      omega

theorem countP_update_by_id (db : List Bank) (i : String) (upd : Bank)
    (hmem : i ∈ db.map Bank.id) (hn : (db.map Bank.id).Nodup)
    (hupd : upd.is_preferred = true) :
    (db.map (fun b => if b.id == i then upd else b)).countP
        (fun b => b.is_preferred)
      = db.countP (fun b => b.is_preferred && !(b.id == i)) + 1 := by
  induction db with
  | nil => cases hmem
  | cons a rest ih =>
    rw [List.map_cons, List.countP_cons, List.countP_cons]
    rw [List.map_cons] at hmem hn
    rw [List.nodup_cons] at hn
    by_cases ha : a.id = i
    · have hnotin : i ∉ rest.map Bank.id := ha ▸ hn.1
      have hrest : rest.map (fun b => if b.id == i then upd else b) = rest.map id := by
        apply List.map_congr_left
        intro x hx
        have hne : x.id ≠ i := fun hh => hnotin (hh ▸ List.mem_map_of_mem _ hx)
        simp [hne]
      have hcongr : rest.countP (fun b => b.is_preferred && !(b.id == i)) =
          rest.countP (fun b => b.is_preferred) := by
        apply List.countP_congr
        intro x hx
        have hne : x.id ≠ i := fun hh => hnotin (hh ▸ List.mem_map_of_mem _ hx)
        simp [hne]
      rw [hrest, List.map_id, hcongr]
      simp [ha, hupd]
    · have hmem' : i ∈ rest.map Bank.id := by
        rcases List.mem_cons.mp hmem with he | hr
        · exact absurd he.symm ha
        · exact hr
      rw [ih hmem' hn.2]
      have : (a.id == i) = false := by simp [ha]
      simp [this]
      omega

theorem fetch_customers_not_deleted (db : List Customer) (org : String)
    (offset size : Nat) (c : Customer) (hc : c ∈ fetch_customers db org offset size) :
    c.is_deleted = false ∧ c.organization_id = org := by
  have := mem_sortedWindow hc
  have hmem := List.mem_filter.mp this
  have hp := hmem.2
  simp only [Bool.and_eq_true, beq_iff_eq, Bool.not_eq_true'] at hp
  exact ⟨hp.2, hp.1⟩

theorem search_customers_not_deleted (db : List Customer) (org v : String)
    (offset size : Nat) (c : Customer) (hc : c ∈ search_customers db org v offset size) :
    c.is_deleted = false ∧ c.organization_id = org := by
  unfold search_customers at hc
  rcases List.mem_append.mp hc with h | h <;>
  · have hmem := List.mem_filter.mp (mem_sortedWindow h)
    have hp := hmem.2
    simp only [Bool.and_eq_true, beq_iff_eq, Bool.not_eq_true'] at hp
    exact ⟨hp.1.2, hp.1.1⟩

theorem sort_customers_not_deleted (db : List Customer) (org key dir : String)
    (offset size : Nat) (c : Customer) (hc : c ∈ sort_customers db org key offset size dir) :
    c.is_deleted = false ∧ c.organization_id = org := by
  unfold sort_customers at hc
  split at hc <;>
  · have hmem := List.mem_filter.mp (mem_sortedWindow hc)
    have hp := hmem.2
    simp only [Bool.and_eq_true, beq_iff_eq, Bool.not_eq_true'] at hp
    exact ⟨hp.2, hp.1⟩

theorem get_organization_bank_accounts_not_deleted (m : List (String × String))
    (db : List Bank) (org user : String) (l : List Bank)
    (h : get_organization_bank_accounts m db org user = Except.ok l)
    (b : Bank) (hb : b ∈ l) : b.is_deleted = false ∧ b.organisation_id = org := by
  unfold get_organization_bank_accounts at h
  split at h
  case isFalse => cases h
  case isTrue =>
    simp only [Except.ok.injEq] at h
    subst h
    have hp := (List.mem_filter.mp hb).2
    simp only [Bool.and_eq_true, beq_iff_eq, Bool.not_eq_true'] at hp
    exact ⟨hp.2, hp.1⟩

theorem fetch_bank_deleted_not_found (db : List Bank) (id : String)
    (h : ∀ b ∈ db, b.id = id → b.is_deleted = true) :
    fetch_bank db id = Except.error ApiError.NotFound := by
  unfold fetch_bank
  have : List.find? (fun b => b.id == id && !b.is_deleted) db = none := by
    rw [List.find?_eq_none]
    intro b hb
    simp only [Bool.and_eq_true, beq_iff_eq, Bool.not_eq_true', not_and]
    intro hid
    simp [h b hb hid]
  rw [this]

/-! ## Claim theorems -/

/-- C1: the spec claims every one of get/update/delete rejects a non-member
of the bank's owning organization with Forbidden.  Evaluating the embedded
handlers at a concrete store refutes this: `"eve"`, a member only of
`"orgX"`, (a) reads bank `"b1"` of `"orgY"` through `get_single_bank`
(whose `org_id` parameter is unused and which performs no membership
check), and (b) successfully updates it through `update_bank_details` by
passing `organisation_id = "orgX"` in the request body, since the
membership check uses the body's organization rather than the stored one —
the response shows the new account number on the bank still owned by
`"orgY"`.  Only `delete_bank`, which checks against the stored
organization, rejects with Forbidden. -/
theorem c1_bank_access_bypass :
    get_single_bank [("eve", "orgX")] [sampleBank "b1" "orgY" false false]
        "orgY" "b1" "eve" = Except.ok (sampleBank "b1" "orgY" false false)
    ∧ (update_bank_details [("eve", "orgX")] [sampleBank "b1" "orgY" false false]
        "b1" (sampleAddBank "orgX" false) "eve").toOption.map
          (fun p => (p.2.account_number, p.2.organisation_id)) = some ("9999", "orgY")
    ∧ delete_bank [("eve", "orgX")] [sampleBank "b1" "orgY" false false] "b1" "eve"
        = Except.error ApiError.Forbidden := by
  decide

/-- C2 counterexample: with banks `b1`, `b2` both preferred and `b3` not,
a member's update of `b3` with `is_preferred = true` leaves TWO non-deleted
preferred accounts (`b2` and the updated `b3`): the clear-preferred step
finds and clears only ONE record — the first other preferred one, `b1` —
so a store that already held two preferred accounts keeps two afterwards,
refuting the claim's at-most-one and previous-cleared parts. -/
theorem c2_counterexample :
    (update_bank_details [("u", "org1")]
        [sampleBank "b1" "org1" true false, sampleBank "b2" "org1" true false,
         sampleBank "b3" "org1" false false]
        "b3" (sampleAddBank "org1" true) "u").toOption.map
          (fun p => p.1.countP (fun b => b.is_preferred && !b.is_deleted)) = some 2 := by
  decide

/-- C2 (amended): after `update_bank_details` commits an update with
`is_preferred = true` on a store with distinct ids, the updated account
reads `is_preferred = true`, and exactly the FIRST preferred record other
than the updated one (store-wide, soft-deleted included, not
organization-scoped) is cleared, if one exists: when no other account was
preferred the updated account is the unique preferred one, and when k ≥ 1
other accounts were preferred, k accounts remain preferred afterwards —
so at most one non-deleted account is preferred exactly under the
precondition that at most one account other than the updated one was
preferred before. -/
theorem update_preferred_count (m : List (String × String)) (db : List Bank)
    (bank_id : String) (inp : AddBank) (user : String)
    (db2 : List Bank) (ret : Bank)
    (hn : (db.map Bank.id).Nodup) (hp : inp.is_preferred = true)
    (h : update_bank_details m db bank_id inp user = Except.ok (db2, ret)) :
    (∀ b ∈ db2, b.id = bank_id → b.is_preferred = true)
    ∧ (db.countP (fun b => b.is_preferred && !(b.id == bank_id)) = 0 →
        db2.countP (fun b => b.is_preferred) = 1)
    ∧ (0 < db.countP (fun b => b.is_preferred && !(b.id == bank_id)) →
        db2.countP (fun b => b.is_preferred) =
          db.countP (fun b => b.is_preferred && !(b.id == bank_id)))
    ∧ (db.countP (fun b => b.is_preferred && !(b.id == bank_id)) ≤ 1 →
        db2.countP (fun b => b.is_preferred && !b.is_deleted) ≤ 1) := by
  unfold update_bank_details at h
  split at h
  case isFalse => cases h
  case isTrue hmem =>
    cases hf : fetch_bank db bank_id with
    | error e => rw [hf] at h; cases h
    | ok B =>
      rw [hf] at h
      simp only [hp, if_true, Except.ok.injEq, Prod.mk.injEq] at h
      obtain ⟨hdb2, hret⟩ := h
      unfold fetch_bank at hf
      cases hfind : List.find? (fun b => b.id == bank_id && !b.is_deleted) db with
      | none => rw [hfind] at hf; cases hf
      | some B' =>
        rw [hfind] at hf
        cases hf
        have hBmem : B ∈ db := List.mem_of_find?_eq_some hfind
        have hBp := List.find?_some hfind
        have hBid : B.id = bank_id := by
          simp only [Bool.and_eq_true, beq_iff_eq] at hBp
          exact hBp.1
        have hupd : (applyBankUpdate B inp).is_preferred = true := by
          simp [applyBankUpdate, hp]
        subst hdb2
        rw [← hBid]
        have hids : (clearFirstPreferredOther B.id db).map Bank.id = db.map Bank.id :=
          clearFirstPreferredOther_map_id B.id db
        have hmemid : B.id ∈ (clearFirstPreferredOther B.id db).map Bank.id := by
          rw [hids]
          exact List.mem_map_of_mem _ hBmem
        have hn1 : ((clearFirstPreferredOther B.id db).map Bank.id).Nodup := by
          rw [hids]
          exact hn
        have hkey := countP_update_by_id (clearFirstPreferredOther B.id db) B.id
          (applyBankUpdate B inp) hmemid hn1 hupd
        have hmono : ((clearFirstPreferredOther B.id db).map (fun b =>
            if b.id == B.id then applyBankUpdate B inp else b)).countP
              (fun b => b.is_preferred && !b.is_deleted) ≤
            ((clearFirstPreferredOther B.id db).map (fun b =>
            if b.id == B.id then applyBankUpdate B inp else b)).countP
              (fun b => b.is_preferred) := by
          apply List.countP_mono_left
          intro x hx hpx
          simp only [Bool.and_eq_true] at hpx
          exact hpx.1
        refine ⟨?_, ?_, ?_, ?_⟩
        · intro b hb hbid
          obtain ⟨x, hx, rfl⟩ := List.mem_map.mp hb
          by_cases hc : x.id = B.id
          · simp [hc, hupd]
          · exact absurd (by simpa [hc] using hbid) hc
        · intro h0
          rw [hkey, clearFirstPreferredOther_eq_self B.id db h0, h0]
        · intro hposmain
          have hc3 := countP_clearFirstPreferredOther B.id db hposmain
          rw [hkey]
          omega
        · intro hle
          rcases Nat.eq_zero_or_pos
              (db.countP (fun b => b.is_preferred && !(b.id == B.id))) with h0 | hpos2
          · have h1 : (clearFirstPreferredOther B.id db).countP
                (fun b => b.is_preferred && !(b.id == B.id)) = 0 := by
              rw [clearFirstPreferredOther_eq_self B.id db h0]
              exact h0
            omega
          · have hc3 := countP_clearFirstPreferredOther B.id db hpos2
            omega

/-- C2 witness: a member updates `b2` to preferred while only `b1` was
preferred before; `b1` is cleared, the updated `b2` reads preferred, and
exactly one account is preferred afterwards. -/
theorem update_preferred_count_witness :
    (∀ b ∈ [sampleBank "b1" "org1" false false,
        applyBankUpdate (sampleBank "b2" "org1" false false) (sampleAddBank "org1" true)],
      b.id = "b2" → b.is_preferred = true)
    ∧ (List.countP (fun b => b.is_preferred && !(b.id == "b2"))
          [sampleBank "b1" "org1" true false, sampleBank "b2" "org1" false false] = 0 →
        List.countP (fun b => b.is_preferred)
          [sampleBank "b1" "org1" false false,
           applyBankUpdate (sampleBank "b2" "org1" false false) (sampleAddBank "org1" true)] = 1)
    ∧ (0 < List.countP (fun b => b.is_preferred && !(b.id == "b2"))
          [sampleBank "b1" "org1" true false, sampleBank "b2" "org1" false false] →
        List.countP (fun b => b.is_preferred)
          [sampleBank "b1" "org1" false false,
           applyBankUpdate (sampleBank "b2" "org1" false false) (sampleAddBank "org1" true)] =
        List.countP (fun b => b.is_preferred && !(b.id == "b2"))
          [sampleBank "b1" "org1" true false, sampleBank "b2" "org1" false false])
    ∧ (List.countP (fun b => b.is_preferred && !(b.id == "b2"))
          [sampleBank "b1" "org1" true false, sampleBank "b2" "org1" false false] ≤ 1 →
        List.countP (fun b => b.is_preferred && !b.is_deleted)
          [sampleBank "b1" "org1" false false,
           applyBankUpdate (sampleBank "b2" "org1" false false) (sampleAddBank "org1" true)] ≤ 1) :=
  update_preferred_count [("u", "org1")]
    [sampleBank "b1" "org1" true false, sampleBank "b2" "org1" false false]
    "b2" (sampleAddBank "org1" true) "u"
    [sampleBank "b1" "org1" false false,
     applyBankUpdate (sampleBank "b2" "org1" false false) (sampleAddBank "org1" true)]
    (applyBankUpdate (sampleBank "b2" "org1" false false) (sampleAddBank "org1" true))
    (by decide) (by decide) (by decide)

/-- C3 counterexample: creating bank `"A"` with `is_preferred = true` for
`"org1"` and then bank `"B"` also with `is_preferred = true` for the same
organization leaves `"A"` still reading `is_preferred = true` — the claim
says it must read `false`. -/
theorem c3_counterexample :
    ((add_bank_detail [("u", "org1")] [] (sampleAddBank "org1" true) "u" "A").bind
        (fun p1 => add_bank_detail [("u", "org1")] p1.1 (sampleAddBank "org1" true) "u" "B")).toOption.map
      (fun p => (p.1.filter (fun bk => bk.id == "A")).map Bank.is_preferred) = some [true] := by
  decide

/-- C3 (amended): `add_bank_detail` performs no clearing of previously
preferred accounts — a successful creation appends the new record (whose
preferred flag is the request's) and leaves every prior record untouched,
so the preferred count grows by one when the new account is preferred;
after two preferred creations for the same organization BOTH accounts read
`is_preferred = true` (the clearing side effect exists only in
`update_bank_details`). -/
theorem add_bank_detail_no_clear (m : List (String × String)) (db : List Bank)
    (inp : AddBank) (user nid : String) (db' : List Bank) (nb : Bank)
    (h : add_bank_detail m db inp user nid = Except.ok (db', nb)) :
    db' = db ++ [nb] ∧ nb.is_preferred = inp.is_preferred ∧
      db'.countP (fun b => b.is_preferred) =
        db.countP (fun b => b.is_preferred) +
          (if inp.is_preferred then 1 else 0) := by
  unfold add_bank_detail at h
  split at h
  case isFalse => cases h
  case isTrue hmem =>
    simp only [Except.ok.injEq, Prod.mk.injEq] at h
    obtain ⟨hdb, hnb⟩ := h
    subst hdb
    subst hnb
    refine ⟨rfl, rfl, ?_⟩
    rw [List.countP_append]
    simp [newBankOfInput, List.countP_cons]

/-- C3 witness: the first creation of the counterexample scenario,
instantiating the amended claim at a concrete input. -/
theorem add_bank_detail_no_clear_witness :
    [newBankOfInput (sampleAddBank "org1" true) "A" "u"] =
        [] ++ [newBankOfInput (sampleAddBank "org1" true) "A" "u"]
    ∧ (newBankOfInput (sampleAddBank "org1" true) "A" "u").is_preferred =
        (sampleAddBank "org1" true).is_preferred
    ∧ List.countP (fun b => b.is_preferred)
          [newBankOfInput (sampleAddBank "org1" true) "A" "u"] =
        List.countP (fun b => b.is_preferred) ([] : List Bank) +
          (if (sampleAddBank "org1" true).is_preferred then 1 else 0) :=
  add_bank_detail_no_clear [("u", "org1")] [] (sampleAddBank "org1" true) "u" "A"
    [newBankOfInput (sampleAddBank "org1" true) "A" "u"]
    (newBankOfInput (sampleAddBank "org1" true) "A" "u") (by decide)

/-- C4: the claim says `put_customer` overwrites a stored field only when
the CORRESPONDING input field is truthy.  Evaluating the embedding at a
concrete row refutes this for one field: an update carrying only
`country_code = "+234"` overwrites `region` (whose own input is empty) and
leaves `country_code` at its stored value `"NG"` — the source's last guard
assigns `customer.country_code` to `customer_instance.region`.  Every
other field follows the claimed partial-update contract: updating with only
`first_name = "X"` changes exactly `first_name` and `last_updated`. -/
theorem c4_put_customer_country_code_bug :
    (put_customer { emptyUpdate with country_code := "+234" }
        (sampleCustomer "c1" "SID1" "org1" "Jane" "Doe" false 0) 5).region = "+234"
    ∧ (put_customer { emptyUpdate with country_code := "+234" }
        (sampleCustomer "c1" "SID1" "org1" "Jane" "Doe" false 0) 5).country_code = "NG"
    ∧ put_customer { emptyUpdate with first_name := "X" }
          (sampleCustomer "c1" "SID1" "org1" "Jane" "Doe" false 0) 5 =
        { sampleCustomer "c1" "SID1" "org1" "Jane" "Doe" false 0 with
            first_name := "X", last_updated := 5 } := by
  decide

/-- C5 counterexample: `get_customer_by_id` on the short id of a
soft-deleted customer returns the record rather than the claimed
`NotFound` — the query has no `is_deleted` filter. -/
theorem c5_counterexample :
    get_customer_by_id [sampleCustomer "c1" "SID1" "org1" "Jane" "Doe" true 0] "SID1" =
        some (sampleCustomer "c1" "SID1" "org1" "Jane" "Doe" true 0)
    ∧ (sampleCustomer "c1" "SID1" "org1" "Jane" "Doe" true 0).is_deleted = true := by
  decide

/-- C5 (amended): soft-deleted records never appear in the list, search or
sort results for customers, nor in the organization bank-account listing,
and the bank `get` path (`fetch_bank`) answers `NotFound` when every record
with the requested id is soft-deleted; but `get_customer_by_id` (the
customer `getById`) has no soft-delete filter and returns the record, as
the counterexample shows. -/
theorem c5_soft_delete_exclusion :
    (∀ db org offset size c, c ∈ fetch_customers db org offset size →
      c.is_deleted = false)
    ∧ (∀ db org v offset size c, c ∈ search_customers db org v offset size →
        c.is_deleted = false)
    ∧ (∀ db org key offset size dir c, c ∈ sort_customers db org key offset size dir →
        c.is_deleted = false)
    ∧ (∀ m db org user l, get_organization_bank_accounts m db org user = Except.ok l →
        ∀ b ∈ l, b.is_deleted = false)
    ∧ (∀ db id, (∀ b ∈ db, b.id = id → b.is_deleted = true) →
        fetch_bank db id = Except.error ApiError.NotFound) :=
  ⟨fun db org o s c hc => (fetch_customers_not_deleted db org o s c hc).1,
   fun db org v o s c hc => (search_customers_not_deleted db org v o s c hc).1,
   fun db org key o s dir c hc => (sort_customers_not_deleted db org key dir o s c hc).1,
   fun m db org user l h b hb =>
     (get_organization_bank_accounts_not_deleted m db org user l h b hb).1,
   fun db id h => fetch_bank_deleted_not_found db id h⟩

/-- C5 witness: fetching a bank whose only record with that id is
soft-deleted yields `NotFound`, by the last conjunct of the amended
claim. -/
theorem c5_soft_delete_exclusion_witness :
    fetch_bank [sampleBank "b1" "org1" true true] "b1" =
      Except.error ApiError.NotFound :=
  c5_soft_delete_exclusion.2.2.2.2 [sampleBank "b1" "org1" true true] "b1" (by decide)

/-- C6 counterexample: the claim describes the id sub-query as a PARTIAL
match.  For a customer with short id `"CUST123"`, searching `"UST12"`
returns nothing from the source embedding (`like` is applied to the raw
search value, an exact comparison) while the claim's partial-match reading
would return the customer. -/
theorem c6_counterexample :
    search_customers [sampleCustomer "c1" "CUST123" "org1" "Jane" "Doe" false 0]
        "org1" "UST12" 0 50 = []
    ∧ search_customers_claimed [sampleCustomer "c1" "CUST123" "org1" "Jane" "Doe" false 0]
        "org1" "UST12" 0 50 =
          [sampleCustomer "c1" "CUST123" "org1" "Jane" "Doe" false 0] := by
  decide

/-- C6 (amended): over the full window, `search_customers` returns exactly
the non-deleted customers of the organization whose first or last name
CONTAINS the text, or whose external unique id or short id EQUALS the text
exactly (name matches concatenated before id matches, each sub-query
independently windowed and ordered newest first). -/
theorem search_customers_mem_characterization (db : List Customer)
    (org v : String) (x : Customer) :
    x ∈ search_customers db org v 0 db.length ↔
      (x ∈ db ∧ x.organization_id = org ∧ x.is_deleted = false ∧
        ((v.data <:+: x.first_name.data ∨ v.data <:+: x.last_name.data) ∨
          x.unique_id = v ∨ x.customer_id = v)) := by
  unfold search_customers
  rw [List.mem_append]
  rw [sortedWindow_full (le_trans (db.length_filter_le _) le_rfl),
      sortedWindow_full (le_trans (db.length_filter_le _) le_rfl)]
  rw [List.mem_insertionSort, List.mem_insertionSort]
  rw [List.mem_filter, List.mem_filter]
  simp only [Bool.and_eq_true, beq_iff_eq, Bool.not_eq_true', Bool.or_eq_true,
    likeContains, decide_eq_true_eq]
  tauto

/-- C6 witness: the spec's example — searching `"Jan"` in `"org1"` over a
store holding "Jane Doe" (org1) and "Jan Smith" (org2) returns "Jane Doe"
and not "Jan Smith". -/
theorem search_customers_mem_characterization_witness :
    sampleCustomer "c1" "CID1" "org1" "Jane" "Doe" false 0 ∈
      search_customers
        [sampleCustomer "c1" "CID1" "org1" "Jane" "Doe" false 0,
         sampleCustomer "c2" "CID2" "org2" "Jan" "Smith" false 1]
        "org1" "Jan" 0 2
    ∧ sampleCustomer "c2" "CID2" "org2" "Jan" "Smith" false 1 ∉
      search_customers
        [sampleCustomer "c1" "CID1" "org1" "Jane" "Doe" false 0,
         sampleCustomer "c2" "CID2" "org2" "Jan" "Smith" false 1]
        "org1" "Jan" 0 2 :=
  ⟨(search_customers_mem_characterization
      [sampleCustomer "c1" "CID1" "org1" "Jane" "Doe" false 0,
       sampleCustomer "c2" "CID2" "org2" "Jan" "Smith" false 1]
      "org1" "Jan" (sampleCustomer "c1" "CID1" "org1" "Jane" "Doe" false 0)).mpr
    (by decide),
   fun hm => absurd
    ((search_customers_mem_characterization
      [sampleCustomer "c1" "CID1" "org1" "Jane" "Doe" false 0,
       sampleCustomer "c2" "CID2" "org2" "Jan" "Smith" false 1]
      "org1" "Jan" (sampleCustomer "c2" "CID2" "org2" "Jan" "Smith" false 1)).mp hm).2.1
    (by decide)⟩

/-- C7: `sort_customers` (a) treats an unrecognized column name exactly as
`"first_name"` (no error — the `getattr` default), (b) is sorted ascending
by the resolved column whenever the direction is not exactly `"desc"`,
(c) is sorted descending under `"desc"`, and (d) returns only non-deleted
customers of the organization. -/
theorem sort_customers_correct (db : List Customer) (org sort_key sort_dir : String)
    (offset size : Nat) :
    (sort_key ∉ customerColumns →
      sort_customers db org sort_key offset size sort_dir =
        sort_customers db org "first_name" offset size sort_dir)
    ∧ (sort_dir ≠ "desc" →
        (sort_customers db org sort_key offset size sort_dir).Pairwise
          (fun a b => colLe sort_key a b = true))
    ∧ (sort_customers db org sort_key offset size "desc").Pairwise
        (fun a b => colLe sort_key b a = true)
    ∧ (∀ c ∈ sort_customers db org sort_key offset size sort_dir,
        c.organization_id = org ∧ c.is_deleted = false) := by
  refine ⟨?_, ?_, ?_, ?_⟩
  · intro hk
    have hcol : colLe sort_key = colLe "first_name" :=
      funext fun a => funext fun b => colLe_fallback sort_key hk a b
    simp only [sort_customers, hcol]
  · intro hdir
    unfold sort_customers
    rw [if_neg hdir]
    exact sortedWindow_pairwise (colLe_total sort_key) (colLe_trans sort_key) _ _ _
  · unfold sort_customers
    rw [if_pos rfl]
    exact sortedWindow_pairwise (fun a b => colLe_total sort_key b a)
      (fun a b c h1 h2 => colLe_trans sort_key c b a h2 h1) _ _ _
  · intro c hc
    exact (sort_customers_not_deleted db org sort_key sort_dir offset size c hc).symm

/-- C7 witness: sorting by the unrecognized key `"nonsense"` coincides with
sorting by `"first_name"` on a concrete two-customer store. -/
theorem sort_customers_correct_witness :
    sort_customers
        [sampleCustomer "c1" "CID1" "org1" "Bob" "A" false 0,
         sampleCustomer "c2" "CID2" "org1" "Alice" "B" false 1]
        "org1" "nonsense" 0 50 "asc" =
      sort_customers
        [sampleCustomer "c1" "CID1" "org1" "Bob" "A" false 0,
         sampleCustomer "c2" "CID2" "org1" "Alice" "B" false 1]
        "org1" "first_name" 0 50 "asc" :=
  (sort_customers_correct
    [sampleCustomer "c1" "CID1" "org1" "Bob" "A" false 0,
     sampleCustomer "c2" "CID2" "org1" "Alice" "B" false 1]
    "org1" "nonsense" "asc" 0 50).1 (by decide)

/-- C8 counterexample: with `info = ""` (a non-`None` but Python-falsy
value), an absent country takes the `elif` branch and projects the empty
key out of the `"others"` entry — a `KeyError`, i.e. a failure — while
`get_country_data("others", "")` takes the truthiness branch and returns
the whole entry; so the call both fails and differs from the `"others"`
resolution, refuting "never fails" and the claimed equality. -/
theorem c8_counterexample :
    get_country_data [("others", [("schema", "s0")])] "Nigeria" (some "") = none
    ∧ get_country_data [("others", [("schema", "s0")])] "others" (some "") =
        some (CountryVal.entry [("schema", "s0")]) := by
  decide

/-- C8 (amended): provided `info` is `None` or a non-empty string, a
country absent from the table resolves exactly like `"others"`: with no
`info` the whole catch-all entry is returned (never a failure), and with a
non-empty `info` both calls project the same field of the `"others"`
entry; the `info = ""` corner refuted by the counterexample is excluded. -/
theorem get_country_data_default (tbl : List (String × CEntry)) (c : String)
    (e : CEntry) (info : Option String)
    (ho : tbl.lookup "others" = some e) (hc : tbl.lookup c = none)
    (hi : info = none ∨ ∃ s, info = some s ∧ s ≠ "") :
    get_country_data tbl c info = get_country_data tbl "others" info
    ∧ (info = none → get_country_data tbl c info = some (CountryVal.entry e)) := by
  rcases hi with h | ⟨s, hs, hne⟩
  · subst h
    unfold get_country_data
    rw [hc, ho]
    simp
  · subst hs
    unfold get_country_data
    rw [hc, ho]
    simp [hne]

/-- C8 witness: on a table whose only key is `"others"`, the absent country
`"Nigeria"` with `info = "schema"` resolves exactly like `"others"`. -/
theorem get_country_data_default_witness :
    get_country_data [("others", [("schema", "s0")])] "Nigeria" (some "schema") =
      get_country_data [("others", [("schema", "s0")])] "others" (some "schema")
    ∧ ((some "schema" : Option String) = none →
        get_country_data [("others", [("schema", "s0")])] "Nigeria" (some "schema") =
          some (CountryVal.entry [("schema", "s0")])) :=
  get_country_data_default [("others", [("schema", "s0")])] "Nigeria"
    [("schema", "s0")] (some "schema") (by decide) (by decide)
    (Or.inr ⟨"schema", rfl, by decide⟩)

/-- C9: `put_customer` never writes the stored `country_code` field — it is
preserved for every input — and whenever the input's `country_code` is
truthy (non-empty) its value is written into `region` instead. -/
theorem put_customer_country_code_frame (c : CustomerUpdate) (ci : Customer)
    (now : Nat) :
    (put_customer c ci now).country_code = ci.country_code
    ∧ (c.country_code ≠ "" → (put_customer c ci now).region = c.country_code) := by
  constructor
  · simp only [put_customer, apply_ite Customer.country_code, ite_self]
  · intro h
    simp only [put_customer, if_pos h]

/-- C9 witness: a concrete update with `country_code = "+1"` leaves the
stored `country_code` unchanged and lands the value in `region`. -/
theorem put_customer_country_code_frame_witness :
    (put_customer { emptyUpdate with country_code := "+1" }
        (sampleCustomer "c9" "SID9" "org1" "Ann" "Lee" false 0) 7).country_code =
      (sampleCustomer "c9" "SID9" "org1" "Ann" "Lee" false 0).country_code
    ∧ (put_customer { emptyUpdate with country_code := "+1" }
        (sampleCustomer "c9" "SID9" "org1" "Ann" "Lee" false 0) 7).region = "+1" :=
  ⟨(put_customer_country_code_frame { emptyUpdate with country_code := "+1" }
      (sampleCustomer "c9" "SID9" "org1" "Ann" "Lee" false 0) 7).1,
   (put_customer_country_code_frame { emptyUpdate with country_code := "+1" }
      (sampleCustomer "c9" "SID9" "org1" "Ann" "Lee" false 0) 7).2 (by decide)⟩

/-- C10: a successful `delete_bank` by a member of the stored bank's
organization produces a store of the same length in which every record
whose id is the deleted one has exactly its `is_deleted` flag set to
`true` (all other attributes syntactically preserved) and every record
with a different id is unchanged. -/
theorem delete_bank_frame (m : List (String × String)) (db : List Bank)
    (bank_id user : String) (B : Bank)
    (hf : fetch_bank db bank_id = Except.ok B)
    (hm : is_organization_member user B.organisation_id m = true) :
    ∃ db', delete_bank m db bank_id user = Except.ok db'
      ∧ db'.length = db.length
      ∧ ∀ j (h : j < db.length) (h' : j < db'.length),
          db'.get ⟨j, h'⟩ =
            if (db.get ⟨j, h⟩).id = bank_id
            then { db.get ⟨j, h⟩ with is_deleted := true }
            else db.get ⟨j, h⟩ := by
  have hBid : B.id = bank_id := by
    unfold fetch_bank at hf
    cases hfind : List.find? (fun b => b.id == bank_id && !b.is_deleted) db with
    | none => rw [hfind] at hf; cases hf
    | some B' =>
      rw [hfind] at hf
      cases hf
      have := List.find?_some hfind
      simp only [Bool.and_eq_true, beq_iff_eq] at this
      exact this.1
  have hrun : delete_bank m db bank_id user =
      Except.ok (db.map (fun b =>
        if b.id == B.id then { b with is_deleted := true } else b)) := by
    unfold delete_bank
    rw [hf]
    simp [hm]
  refine ⟨_, hrun, by simp, ?_⟩
  intro j h h'
  simp only [List.get_eq_getElem, List.getElem_map, hBid, beq_iff_eq]

/-- C10 witness: deleting `"b1"` in a two-bank store — the run succeeds and
the pointwise frame condition holds. -/
theorem delete_bank_frame_witness :
    ∃ db', delete_bank [("u", "org1")]
        [sampleBank "b1" "org1" true false, sampleBank "b2" "org1" false false]
        "b1" "u" = Except.ok db'
      ∧ db'.length =
          [sampleBank "b1" "org1" true false, sampleBank "b2" "org1" false false].length
      ∧ ∀ j (h : j <
            [sampleBank "b1" "org1" true false,
             sampleBank "b2" "org1" false false].length)
          (h' : j < db'.length),
          db'.get ⟨j, h'⟩ =
            if (([sampleBank "b1" "org1" true false,
                  sampleBank "b2" "org1" false false].get ⟨j, h⟩)).id = "b1"
            then { [sampleBank "b1" "org1" true false,
                    sampleBank "b2" "org1" false false].get ⟨j, h⟩ with
                     is_deleted := true }
            else [sampleBank "b1" "org1" true false,
                  sampleBank "b2" "org1" false false].get ⟨j, h⟩ :=
  delete_bank_frame [("u", "org1")]
    [sampleBank "b1" "org1" true false, sampleBank "b2" "org1" false false]
    "b1" "u" (sampleBank "b1" "org1" true false) (by decide) (by decide)
